import Mathlib

/-!
Verification of the dindee-server property-search engine.

This file gives a shallow embedding, in Lean, of the search and ranking
subsystem of the repository (chiefly src/services/PostQueryHelper.ts and the
advanced-search / nearby-posts route handlers) and proves or refutes the
frozen specification claims about it.

Modelling conventions:
- The MongoDB store is abstracted as a list of listings (posts).  The list is
  assumed to be in the order the store returns records for the active query
  (native field sort or nearest-first geospatial order); the engine
  skip/limit/filter/score/sort logic is modelled explicitly on top of it.
- The geospatial predicate backing the $near operator is abstracted as a
  boolean parameter (the store owns radius filtering); the haversine distance
  used for result annotation is modelled exactly, over the reals, in the final
  section of this file.
- JavaScript strings are modelled as Lean strings; toLowerCase is character
  map lowering, and the case-insensitive $regex / includes checks used by the
  code (whose patterns are plain words in every code path we model) are
  modelled as case-insensitive substring containment.
- JavaScript truthiness is modelled explicitly: an optional number is truthy
  when it is present and nonzero, an optional string when present and
  nonempty.
- Numbers flowing through filters and scores are modelled as rationals (the
  code only ever adds, divides by 100, compares and takes minima of values
  that are exact in double precision in every modelled scenario).
- Array.prototype.sort with the comparator (a, b) => b.score - a.score is a
  stable sort by descending score (stability is guaranteed by the JS spec);
  it is modelled by List.mergeSort with the corresponding total preorder,
  which is also stable.
-/

namespace Dindee

/-- Model of JavaScript String.prototype.toLowerCase (character-wise). -/
def jsToLower (s : String) : String :=
  String.mk (s.data.map Char.toLower)

/-- Model of the case-insensitive containment check used throughout the code:
s.toLowerCase().includes(q.toLowerCase()), and of a case-insensitive $regex
with a plain-word pattern. -/
def jsIncludes (s q : String) : Bool :=
  decide ((jsToLower q).data <:+: (jsToLower s).data)

/-- Lifecycle status of a listing (the status field of the Post schema). -/
inductive Status where
  | pending
  | approved
  | rejected
deriving DecidableEq, Repr

/-- The listing fields read by the search engine, from the Post schema.
location.address.* and location.coordinates.coordinates are flattened;
houseDetails and landDetails subdocuments are flattened likewise. -/
structure Post where
  title : String := ""
  description : String := ""
  tags : List String := []
  keywords : List String := []
  province : String := ""
  district : String := ""
  street : String := ""
  price : ℚ := 0
  area : ℚ := 0
  propertyType : String := ""
  listingType : String := ""
  condition : String := ""
  featured : Bool := false
  urgent : Bool := false
  viewCount : ℕ := 0
  status : Status := .pending
  lat : ℚ := 0
  lon : ℚ := 0
  bedrooms : ℕ := 0
  bathrooms : ℕ := 0
  roadAccess : Bool := false
  waterSource : Bool := false
  utilities : List String := []
deriving DecidableEq, Repr

/-- PostQueryHelper.calculateRelevanceScore, translated statement by
statement from the source.  The truthiness guards on title, description and
viewCount are kept; tag and keyword loops are the forEach
accumulations. -/
def calculateRelevanceScore (post : Post) (searchText : String) : ℚ :=
  if searchText = "" then 0
  else
    let searchLower := jsToLower searchText
    let score : ℚ := 0
    let score :=
      if post.title ≠ "" ∧ jsIncludes post.title searchText then
        (if jsToLower post.title = searchLower then score + 10 + 5 else score + 10)
      else score
    let score := post.tags.foldl
      (fun sc tag => if jsIncludes tag searchText then sc + 8 else sc) score
    let score := post.keywords.foldl
      (fun sc kw => if jsIncludes kw searchText then sc + 7 else sc) score
    let score := if jsIncludes post.province searchText then score + 6 else score
    let score := if jsIncludes post.district searchText then score + 5 else score
    let score := if jsIncludes post.street searchText then score + 4 else score
    let score :=
      if post.description ≠ "" ∧ jsIncludes post.description searchText then score + 3
      else score
    let score := if post.featured then score + 2 else score
    let score := if post.urgent then score + 1 else score
    let score :=
      if post.viewCount ≠ 0 then score + min ((post.viewCount : ℚ) / 100) 3
      else score
    score

/-- An indicator-weight summand, used to state the additive weight
table. -/
def weightIf (b : Prop) [Decidable b] (w : ℚ) : ℚ :=
  if b then w else 0

/-- Modelled from the weight table of the spec (section 4.3): the relevance score
as a plain sum of weighted signals. -/
def specRelevanceScore (post : Post) (q : String) : ℚ :=
  weightIf (jsIncludes post.title q) 10
    + weightIf (jsToLower post.title = jsToLower q) 5
    + 8 * (post.tags.countP (fun t => jsIncludes t q))
    + 7 * (post.keywords.countP (fun k => jsIncludes k q))
    + weightIf (jsIncludes post.province q) 6
    + weightIf (jsIncludes post.district q) 5
    + weightIf (jsIncludes post.street q) 4
    + weightIf (jsIncludes post.description q) 3
    + weightIf post.featured 2
    + weightIf post.urgent 1
    + min ((post.viewCount : ℚ) / 100) 3

/-- JavaScript truthiness of an optional number: present and nonzero. -/
def qTruthy : Option ℚ → Bool
  | none => false
  | some x => decide (x ≠ 0)

/-- JavaScript truthiness of an optional natural: present and nonzero. -/
def nTruthy : Option ℕ → Bool
  | none => false
  | some n => decide (n ≠ 0)

/-- The advancedSearch params object (all fields optional in the source;
destructuring defaults are applied by the accessor functions below). -/
structure SearchParams where
  searchText : Option String := none
  latitude : Option ℚ := none
  longitude : Option ℚ := none
  radius : Option ℚ := none
  propertyType : Option String := none
  listingType : Option String := none
  minPrice : Option ℚ := none
  maxPrice : Option ℚ := none
  minArea : Option ℚ := none
  maxArea : Option ℚ := none
  province : Option String := none
  district : Option String := none
  bedrooms : Option ℕ := none
  bathrooms : Option ℕ := none
  condition : Option String := none
  featured : Option Bool := none
  urgent : Option Bool := none
  sortBy : Option String := none
  page : Option ℕ := none
  limit : Option ℕ := none
  roadAccess : Option Bool := none
  waterSource : Option Bool := none
  electricity : Option Bool := none

def searchTextOf (p : SearchParams) : String := p.searchText.getD ""

/-- Truthiness of the searchText variable: and undefined or empty search text
is falsy, so it activates neither the text clause nor the score annotation. -/
def textActive (p : SearchParams) : Bool := decide (searchTextOf p ≠ "")

/-- The geospatial clause is added only when latitude and longitude are both
truthy (present and nonzero): the source tests them with a plain if. -/
def geoActive (p : SearchParams) : Bool := qTruthy p.latitude && qTruthy p.longitude

def sortByOf (p : SearchParams) : String := p.sortBy.getD "newest"

def pageOf (p : SearchParams) : ℕ := p.page.getD 1

def limitOf (p : SearchParams) : ℕ := p.limit.getD 10

def radiusOf (p : SearchParams) : ℚ := p.radius.getD 5000

def skipOf (p : SearchParams) : ℕ := (pageOf p - 1) * limitOf p

/-- Relevance mode: search text truthy and the requested sort is not the
native distance sort. -/
def useRelevanceSort (p : SearchParams) : Bool :=
  textActive p && decide (sortByOf p ≠ "distance")

def fetchLimit (p : SearchParams) : ℕ :=
  if useRelevanceSort p then limitOf p * 5 else limitOf p

def fetchSkip (p : SearchParams) : ℕ :=
  if useRelevanceSort p then 0 else skipOf p

/-- buildRangeQuery: each bound is applied only when truthy (the source skips
falsy bounds, so a zero bound imposes no constraint); bounds are inclusive. -/
def rangeOk (mn mx : Option ℚ) (v : ℚ) : Bool :=
  (if qTruthy mn then decide (mn.getD 0 ≤ v) else true)
    && (if qTruthy mx then decide (v ≤ mx.getD 0) else true)

/-- buildTextSearchQuery: the $or clause over title, description, street,
district, province, tags and keywords, each a case-insensitive containment. -/
def textOrMatch (post : Post) (q : String) : Bool :=
  jsIncludes post.title q || jsIncludes post.description q
    || jsIncludes post.street q || jsIncludes post.district q
    || jsIncludes post.province q
    || post.tags.any (fun t => jsIncludes t q)
    || post.keywords.any (fun k => jsIncludes k q)

/-- An exact-equality filter guarded by string truthiness. -/
def optStrEq : Option String → String → Bool
  | none, _ => true
  | some s, v => if s = "" then true else decide (v = s)

/-- A case-insensitive substring filter guarded by string truthiness (the
$regex of the source with option i on province/district). -/
def optSubstr : Option String → String → Bool
  | none, _ => true
  | some s, v => if s = "" then true else jsIncludes v s

/-- An equality filter applied whenever the flag is present (the source tests
featured/urgent/roadAccess/waterSource against undefined, not truthiness). -/
def optBoolEq : Option Bool → Bool → Bool
  | none, _ => true
  | some b, v => v == b

/-- An exact-equality numeric filter guarded by truthiness (bedrooms and
bathrooms: a zero filter value imposes no constraint). -/
def optNatEq : Option ℕ → ℕ → Bool
  | none, _ => true
  | some n, v => if n = 0 then true else decide (v = n)

/-- The utilities $in clause used by the electricity filter. -/
def utilitiesElectric (post : Post) : Bool :=
  post.utilities.any (fun u => u == "electricity" || u == "Electricity" || u == "ໄຟຟ້າ")

/-- All advancedSearch filter clauses other than the status key.  The
$near evaluation is abstracted by the geoOk parameter (a function of
the requested radius). -/
def matchesFilters (geoOk : ℚ → Post → Bool) (p : SearchParams) (post : Post) : Bool :=
  (if textActive p then textOrMatch post (searchTextOf p) else true)
    && (if geoActive p then geoOk (radiusOf p) post else true)
    && optStrEq p.propertyType post.propertyType
    && optStrEq p.listingType post.listingType
    && optStrEq p.condition post.condition
    && optBoolEq p.featured post.featured
    && optBoolEq p.urgent post.urgent
    && optSubstr p.province post.province
    && optSubstr p.district post.district
    && rangeOk p.minPrice p.maxPrice post.price
    && rangeOk p.minArea p.maxArea post.area
    && optNatEq p.bedrooms post.bedrooms
    && optNatEq p.bathrooms post.bathrooms
    && optBoolEq p.roadAccess post.roadAccess
    && optBoolEq p.waterSource post.waterSource
    && (if p.electricity = some true then utilitiesElectric post else true)

/-- The complete advancedSearch query predicate, assembled exactly as the
source assembles its query object: the status key is written first and no
later assignment touches it. -/
def matchesAdvanced (geoOk : ℚ → Post → Bool) (p : SearchParams) (post : Post) : Bool :=
  decide (post.status = .approved) && matchesFilters geoOk p post

/-- A search result: the listing plus the optional computed annotations the
source spreads onto it. -/
structure SearchResult where
  post : Post
  relevanceScore : Option ℚ := none
  distance : Option ℚ := none
deriving DecidableEq, Repr

def scoreKey (r : SearchResult) : ℚ := r.relevanceScore.getD 0

/-- The comparator (a, b) => b.relevanceScore - a.relevanceScore as a total
preorder: a may stay before b when the score of b does not exceed the score of a. -/
def relLE (a b : SearchResult) : Bool := decide (scoreKey b ≤ scoreKey a)

structure Pagination where
  current : ℕ
  total : ℕ
  count : ℕ
  totalCount : ℕ
  limit : ℕ
deriving DecidableEq, Repr

structure SearchInfo where
  hasGeospatialFilter : Bool
  searchCenter : Option (ℚ × ℚ × ℚ)
deriving DecidableEq, Repr

structure SearchResponse where
  posts : List SearchResult
  pagination : Pagination
  searchInfo : SearchInfo
deriving DecidableEq, Repr

/-- Math.ceil(a / b) for natural a and positive b. -/
def jsCeilDiv (a b : ℕ) : ℕ := (a + b - 1) / b

/-- Post.countDocuments(query) and the base set of Post.find(query): the
records matching the predicate, in the return order of the store for the active
sort (the db list abstracts that order). -/
def matchedPosts (geoOk : ℚ → Post → Bool) (db : List Post) (p : SearchParams) : List Post :=
  db.filter (matchesAdvanced geoOk p)

/-- Post.find(query).sort(sortQuery).skip(fetchSkip).limit(fetchLimit). -/
def fetchedPosts (geoOk : ℚ → Post → Bool) (db : List Post) (p : SearchParams) : List Post :=
  ((matchedPosts geoOk db p).drop (fetchSkip p)).take (fetchLimit p)

/-- The relevanceScore annotation spread onto a fetched record. -/
def scoreResult (q : String) (post : Post) : SearchResult :=
  { post := post, relevanceScore := some (calculateRelevanceScore post q) }

/-- The fetched records with the relevanceScore annotation added when search
text is truthy. -/
def scoredResults (geoOk : ℚ → Post → Bool) (db : List Post) (p : SearchParams) :
    List SearchResult :=
  if textActive p then
    (fetchedPosts geoOk db p).map (scoreResult (searchTextOf p))
  else
    (fetchedPosts geoOk db p).map (fun post => { post := post })

/-- In relevance mode, the stable descending sort by score followed by the
slice [skip, skip + limit); otherwise the fetched order stands. -/
def processedResults (geoOk : ℚ → Post → Bool) (db : List Post) (p : SearchParams) :
    List SearchResult :=
  if useRelevanceSort p then
    (((scoredResults geoOk db p).mergeSort relLE).drop (skipOf p)).take (limitOf p)
  else
    scoredResults geoOk db p

/-- The distance annotation the source spreads onto a result: the distance
from the request geocenter to the listing reference point; dist abstracts
calculateDistance. -/
def annotate (dist : ℚ → ℚ → ℚ → ℚ → ℚ) (p : SearchParams) (r : SearchResult) :
    SearchResult :=
  { r with distance := some (dist (p.latitude.getD 0) (p.longitude.getD 0) r.post.lat r.post.lon) }

/-- The distance annotation, added to every result when the geocenter is
truthy. -/
def annotatedResults (dist : ℚ → ℚ → ℚ → ℚ → ℚ) (geoOk : ℚ → Post → Bool)
    (db : List Post) (p : SearchParams) : List SearchResult :=
  if geoActive p then
    (processedResults geoOk db p).map (annotate dist p)
  else
    processedResults geoOk db p

/-- PostQueryHelper.advancedSearch: the full pipeline and response envelope.
pagination.count is the length of the fetched (pre-slice) array, exactly as
in the source. -/
def advancedSearch (dist : ℚ → ℚ → ℚ → ℚ → ℚ) (geoOk : ℚ → Post → Bool)
    (db : List Post) (p : SearchParams) : SearchResponse :=
  { posts := annotatedResults dist geoOk db p
    pagination :=
      { current := pageOf p
        total := jsCeilDiv (matchedPosts geoOk db p).length (limitOf p)
        count := (fetchedPosts geoOk db p).length
        totalCount := (matchedPosts geoOk db p).length
        limit := limitOf p }
    searchInfo :=
      { hasGeospatialFilter := geoActive p
        searchCenter :=
          if geoActive p then some (p.latitude.getD 0, p.longitude.getD 0, radiusOf p)
          else none } }

/-- An arbitrary caller-supplied filter object, as spread into the query of
findNearbyPosts / findWithAdvancedFilter after the status key.  JavaScript
spread semantics make a later status binding override the initial
"approved"; all other keys are abstracted into a predicate. -/
structure MongoFilter where
  statusOverride : Option Status := none
  pred : Post → Bool := fun _ => true

/-- The effective status constraint of a query written as
status approved followed by the spread of the filter. -/
def statusMatches (f : MongoFilter) (post : Post) : Bool :=
  match f.statusOverride with
  | some s => decide (post.status = s)
  | none => decide (post.status = .approved)

/-- PostQueryHelper.findNearbyPosts: geospatial query (the nearest-first
order abstracted by the db order and the geoOk radius test) with the
caller's filter spread over the status key. -/
def findNearbyPosts (geoOk : Post → Bool) (db : List Post) (f : MongoFilter)
    (skip limit : ℕ) : List Post :=
  ((db.filter (fun post => statusMatches f post && geoOk post && f.pred post)).drop skip).take limit

/-- PostQueryHelper.findWithAdvancedFilter: filtered page plus the
independent count. -/
def findWithAdvancedFilter (db : List Post) (f : MongoFilter) (skip limit : ℕ) :
    List Post × ℕ :=
  ((db.filter (fun post => statusMatches f post && f.pred post)).drop skip |>.take limit,
    (db.filter (fun post => statusMatches f post && f.pred post)).length)

/-- The getNearbyPosts route handler (postsController): presence check, then
coordinate range validation, and only then the store query.  An error value
is produced before and independently of any store access. -/
def getNearbyPostsRoute (geoOk : Post → Bool) (db : List Post)
    (latitude longitude : Option ℚ) (page limit : ℕ) (extraFilter : Post → Bool) :
    Except String (List Post) :=
  match latitude, longitude with
  | some lat, some lon =>
      if lat < -90 ∨ lat > 90 ∨ lon < -180 ∨ lon > 180 then
        Except.error "Invalid latitude or longitude values"
      else
        Except.ok (findNearbyPosts geoOk db { pred := extraFilter } ((page - 1) * limit) limit)
  | _, _ => Except.error "Latitude and longitude are required"

/-- The searchPosts route handler (postsController): it parses the optional
geocenter and forwards to advancedSearch with no coordinate validation of
any kind, so the store query always executes. -/
def searchPostsRoute (dist : ℚ → ℚ → ℚ → ℚ → ℚ) (geoOk : ℚ → Post → Bool)
    (db : List Post) (p : SearchParams) : Except String SearchResponse :=
  Except.ok (advancedSearch dist geoOk db p)

/-- A trivial distance function, used to instantiate the abstract distance
parameter in concrete runs. -/
def dist0 : ℚ → ℚ → ℚ → ℚ → ℚ := fun _ _ _ _ => 0

/-- A geospatial predicate accepting every post, for concrete runs. -/
def geoTrue : ℚ → Post → Bool := fun _ _ => true

def approvedBare : Post := { status := .approved }

def pendingPost : Post := { title := "p", status := .pending }

def overflowParams : SearchParams := { searchText := some "x", page := some 6, limit := some 1 }

def titleMatchPost : Post := { title := "box", status := .approved }

def descOnlyPost : Post := { title := "home", description := "x marks", status := .approved }

def marketTitlePost : Post := { title := "House near market", status := .approved }

def marketDescPost : Post := { description := "Plot near the market", status := .approved }

def distanceParams : SearchParams := { searchText := some "x", sortBy := some "distance" }

def zeroLatParams : SearchParams := { latitude := some 0, longitude := some 100 }

def searchXParams : SearchParams := { searchText := some "x" }

def outOfRangeLatParams : SearchParams := { latitude := some 999, longitude := some 100 }

/-- Math.atan2(y, x), as the argument of the complex number x + y i. -/
noncomputable def atan2 (y x : ℝ) : ℝ := Complex.arg ⟨x, y⟩

/-- Degree-to-radian conversion (PostQueryHelper.deg2rad and
CoordinateUtils.toRadians). -/
noncomputable def deg2rad (deg : ℝ) : ℝ := deg * (Real.pi / 180)

/-- PostQueryHelper.calculateDistance over ideal real arithmetic: haversine
with Earth radius 6371 km, result in meters, rounded to the nearest
integer. -/
noncomputable def calculateDistanceMeters (lat1 lon1 lat2 lon2 : ℝ) : ℝ :=
  let dLat := deg2rad (lat2 - lat1)
  let dLon := deg2rad (lon2 - lon1)
  let a := Real.sin (dLat / 2) * Real.sin (dLat / 2)
    + Real.cos (deg2rad lat1) * Real.cos (deg2rad lat2)
      * Real.sin (dLon / 2) * Real.sin (dLon / 2)
  let c := 2 * atan2 (Real.sqrt a) (Real.sqrt (1 - a))
  let distance := 6371 * c * 1000
  ((round distance : ℤ) : ℝ)

/-- CoordinateUtils.calculateDistance over ideal real arithmetic: the same
haversine formula, but the returned value is R * c, i.e. kilometers, with no
rounding and no conversion to meters. -/
noncomputable def coordinateUtilsDistance (lat1 lng1 lat2 lng2 : ℝ) : ℝ :=
  let dLat := deg2rad (lat2 - lat1)
  let dLng := deg2rad (lng2 - lng1)
  let a := Real.sin (dLat / 2) * Real.sin (dLat / 2)
    + Real.cos (deg2rad lat1) * Real.cos (deg2rad lat2)
      * Real.sin (dLng / 2) * Real.sin (dLng / 2)
  let c := 2 * atan2 (Real.sqrt a) (Real.sqrt (1 - a))
  6371 * c

/-- Modelled from the spec: haversine distance in kilometers,
a = sin2(dLat/2) + cos(lat1) cos(lat2) sin2(dLon/2),
d = 2 R atan2(sqrt a, sqrt (1 - a)) with R = 6371 and degree-to-radian
conversion. -/
noncomputable def specHaversineKm (lat1 lon1 lat2 lon2 : ℝ) : ℝ :=
  let a := Real.sin (deg2rad (lat2 - lat1) / 2) ^ 2
    + Real.cos (deg2rad lat1) * Real.cos (deg2rad lat2)
      * Real.sin (deg2rad (lon2 - lon1) / 2) ^ 2
  2 * 6371 * atan2 (Real.sqrt a) (Real.sqrt (1 - a))

/-- Modelled from the spec: the haversine distance expressed in meters and
rounded to the nearest integer. -/
noncomputable def specHaversineMeters (lat1 lon1 lat2 lon2 : ℝ) : ℝ :=
  ((round (specHaversineKm lat1 lon1 lat2 lon2 * 1000) : ℤ) : ℝ)

theorem jsIncludes_empty_left {q : String} (hq : q ≠ "") :
    jsIncludes "" q = false := by
  simp only [jsIncludes, decide_eq_false_iff_not]
  intro h
  apply hq
  have hlen := h.sublist.length_le
  simp only [jsToLower] at hlen
  have hdata : q.data = [] := by
    simpa using List.length_eq_zero.mp (Nat.le_zero.mp hlen)
  cases q with
  | mk d =>
    simp only at hdata
    subst hdata
    rfl

theorem foldl_weight (p : String → Bool) (w : ℚ) :
    ∀ (l : List String) (sc : ℚ),
      l.foldl (fun sc t => if p t then sc + w else sc) sc
        = sc + w * l.countP p := by
  intro l
  induction l with
  | nil => intro sc; simp
  | cons x xs ih =>
    intro sc
    by_cases hx : p x
    · simp [List.countP_cons, hx, ih, mul_add]
      ring
    · simp [List.countP_cons, hx, ih]

theorem title_exact_includes (s q : String)
    (h : jsToLower s = jsToLower q) : jsIncludes s q = true := by
  simp [jsIncludes, h, List.infix_refl]

theorem ite_add_weightIf (b : Prop) [Decidable b] (x w : ℚ) :
    (if b then x + w else x) = x + weightIf b w := by
  by_cases h : b
  · simp [weightIf, h]
  · simp [weightIf, h]

theorem weightIf_nonneg (b : Prop) [Decidable b] {w : ℚ} (hw : 0 ≤ w) :
    0 ≤ weightIf b w := by
  by_cases h : b
  · simpa [weightIf, h] using hw
  · simp [weightIf, h]

theorem weightIf_le (b : Prop) [Decidable b] {w : ℚ} (hw : 0 ≤ w) :
    weightIf b w ≤ w := by
  by_cases h : b
  · simp [weightIf, h]
  · simpa [weightIf, h] using hw

theorem viewBoost_nonneg (vc : ℕ) : 0 ≤ min ((vc : ℚ) / 100) 3 :=
  le_min (by positivity) (by norm_num)

/-- The source scorer agrees with the additive weight table on every
listing and every nonempty query. -/
theorem calculateRelevanceScore_eq_specScore (post : Post) (q : String)
    (hq : q ≠ "") : calculateRelevanceScore post q = specRelevanceScore post q := by
  unfold calculateRelevanceScore specRelevanceScore
  rw [if_neg hq]
  simp only [foldl_weight]
  simp only [ite_add_weightIf]
  have hview : weightIf (¬post.viewCount = 0) (min ((post.viewCount : ℚ) / 100) 3)
      = min ((post.viewCount : ℚ) / 100) 3 := by
    by_cases h0 : post.viewCount = 0
    · simp [weightIf, h0]
    · simp [weightIf, h0]
  rw [hview]
  have hD : ∀ wd : ℚ, weightIf (post.description ≠ "" ∧ jsIncludes post.description q = true) wd
      = weightIf (jsIncludes post.description q) wd := by
    intro wd
    by_cases hB : jsIncludes post.description q = true
    · have hA : post.description ≠ "" := by
        intro h0
        rw [h0, jsIncludes_empty_left hq] at hB
        simp at hB
      simp [weightIf, hA, hB]
    · simp [weightIf, hB]
  rw [hD]
  by_cases hC : jsToLower post.title = jsToLower q
  · have hB := title_exact_includes post.title q hC
    have hA : post.title ≠ "" := by
      intro h0
      rw [h0, jsIncludes_empty_left hq] at hB
      simp at hB
    simp [hA, hB, hC, weightIf]
    try ring
  · by_cases hB : jsIncludes post.title q = true
    · have hA : post.title ≠ "" := by
        intro h0
        rw [h0, jsIncludes_empty_left hq] at hB
        simp at hB
      simp [hA, hB, hC, weightIf]
      try ring
    · have hB' : jsIncludes post.title q = false := by simpa using hB
      simp [hB', hC, weightIf]
      try ring

/-- Every summand of the spec score is nonnegative. -/
theorem specRelevanceScore_nonneg (post : Post) (q : String) :
    0 ≤ specRelevanceScore post q := by
  unfold specRelevanceScore
  have h1 := weightIf_nonneg (jsIncludes post.title q) (w := 10) (by norm_num)
  have h2 := weightIf_nonneg (jsToLower post.title = jsToLower q) (w := 5) (by norm_num)
  have h3 : (0 : ℚ) ≤ 8 * (post.tags.countP (fun t => jsIncludes t q)) := by positivity
  have h4 : (0 : ℚ) ≤ 7 * (post.keywords.countP (fun k => jsIncludes k q)) := by positivity
  have h5 := weightIf_nonneg (jsIncludes post.province q) (w := 6) (by norm_num)
  have h6 := weightIf_nonneg (jsIncludes post.district q) (w := 5) (by norm_num)
  have h7 := weightIf_nonneg (jsIncludes post.street q) (w := 4) (by norm_num)
  have h8 := weightIf_nonneg (jsIncludes post.description q) (w := 3) (by norm_num)
  have h9 := weightIf_nonneg (post.featured = true) (w := 2) (by norm_num)
  have h10 := weightIf_nonneg (post.urgent = true) (w := 1) (by norm_num)
  have h11 := viewBoost_nonneg post.viewCount
  linarith

/-- A title match contributes its full weight: the spec score dominates the
title indicator. -/
theorem specRelevanceScore_ge_title (post : Post) (q : String) :
    weightIf (jsIncludes post.title q) 10 ≤ specRelevanceScore post q := by
  unfold specRelevanceScore
  have h2 := weightIf_nonneg (jsToLower post.title = jsToLower q) (w := 5) (by norm_num)
  have h3 : (0 : ℚ) ≤ 8 * (post.tags.countP (fun t => jsIncludes t q)) := by positivity
  have h4 : (0 : ℚ) ≤ 7 * (post.keywords.countP (fun k => jsIncludes k q)) := by positivity
  have h5 := weightIf_nonneg (jsIncludes post.province q) (w := 6) (by norm_num)
  have h6 := weightIf_nonneg (jsIncludes post.district q) (w := 5) (by norm_num)
  have h7 := weightIf_nonneg (jsIncludes post.street q) (w := 4) (by norm_num)
  have h8 := weightIf_nonneg (jsIncludes post.description q) (w := 3) (by norm_num)
  have h9 := weightIf_nonneg (post.featured = true) (w := 2) (by norm_num)
  have h10 := weightIf_nonneg (post.urgent = true) (w := 1) (by norm_num)
  have h11 := viewBoost_nonneg post.viewCount
  linarith

/-- A listing whose only textual match is in its description, with no flag or
popularity boost, scores at most 3 points. -/
theorem specRelevanceScore_descOnly_le (d : Post) (q : String)
    (hd1 : jsIncludes d.title q = false)
    (hd2 : d.tags.countP (fun t => jsIncludes t q) = 0)
    (hd3 : d.keywords.countP (fun k => jsIncludes k q) = 0)
    (hd4 : jsIncludes d.province q = false)
    (hd5 : jsIncludes d.district q = false)
    (hd6 : jsIncludes d.street q = false)
    (hd7 : d.featured = false) (hd8 : d.urgent = false) (hd9 : d.viewCount = 0) :
    specRelevanceScore d q ≤ 3 := by
  have hC : ¬(jsToLower d.title = jsToLower q) := by
    intro h
    rw [title_exact_includes d.title q h] at hd1
    simp at hd1
  unfold specRelevanceScore
  by_cases hD : jsIncludes d.description q = true
  · simp [weightIf, hd1, hd2, hd3, hd4, hd5, hd6, hd7, hd8, hd9, hC, hD]
  · simp [weightIf, hd1, hd2, hd3, hd4, hd5, hd6, hd7, hd8, hd9, hC, hD]

theorem status_approved_of_matches {geoOk : ℚ → Post → Bool} {p : SearchParams}
    {post : Post} (h : matchesAdvanced geoOk p post = true) :
    post.status = .approved := by
  unfold matchesAdvanced at h
  simp only [Bool.and_eq_true, decide_eq_true_eq] at h
  exact h.1

theorem mem_matched_of_mem_fetched {geoOk : ℚ → Post → Bool} {db : List Post}
    {p : SearchParams} {post : Post} (h : post ∈ fetchedPosts geoOk db p) :
    post ∈ matchedPosts geoOk db p :=
  List.mem_of_mem_drop (List.mem_of_mem_take h)

theorem status_approved_of_mem_matched {geoOk : ℚ → Post → Bool} {db : List Post}
    {p : SearchParams} {post : Post} (h : post ∈ matchedPosts geoOk db p) :
    post.status = .approved :=
  status_approved_of_matches (List.mem_filter.mp h).2

theorem exists_of_mem_scored {geoOk : ℚ → Post → Bool} {db : List Post}
    {p : SearchParams} {r : SearchResult} (h : r ∈ scoredResults geoOk db p) :
    r.post ∈ fetchedPosts geoOk db p ∧ r.distance = none ∧
      r.relevanceScore
        = (if textActive p then some (calculateRelevanceScore r.post (searchTextOf p))
           else none) := by
  unfold scoredResults at h
  by_cases ht : textActive p = true
  · rw [if_pos ht] at h
    obtain ⟨post, hpost, rfl⟩ := List.mem_map.mp h
    refine ⟨hpost, rfl, ?_⟩
    rw [if_pos ht]
    rfl
  · rw [if_neg ht] at h
    obtain ⟨post, hpost, rfl⟩ := List.mem_map.mp h
    exact ⟨hpost, rfl, by rw [if_neg ht]⟩

theorem mem_scored_of_mem_processed {geoOk : ℚ → Post → Bool} {db : List Post}
    {p : SearchParams} {r : SearchResult} (h : r ∈ processedResults geoOk db p) :
    r ∈ scoredResults geoOk db p := by
  unfold processedResults at h
  by_cases hrel : useRelevanceSort p = true
  · rw [if_pos hrel] at h
    exact List.mem_mergeSort.mp (List.mem_of_mem_drop (List.mem_of_mem_take h))
  · rwa [if_neg hrel] at h

theorem relLE_trans : ∀ (a b c : SearchResult), relLE a b → relLE b c → relLE a c := by
  intro a b c hab hbc
  simp only [relLE, decide_eq_true_eq] at hab hbc ⊢
  exact le_trans hbc hab

theorem relLE_total : ∀ (a b : SearchResult), relLE a b || relLE b a := by
  intro a b
  simp only [relLE, Bool.or_eq_true, decide_eq_true_eq]
  exact le_total (scoreKey b) (scoreKey a)

theorem map_strip_of_forall_none :
    ∀ (l : List SearchResult), (∀ r ∈ l, r.distance = none) →
      l.map (fun r => { r with distance := none }) = l := by
  intro l
  induction l with
  | nil => intro h; simp
  | cons x xs ih =>
    intro h
    have hx := h x (List.mem_cons_self _ _)
    have hxs := ih (fun r hr => h r (List.mem_cons_of_mem _ hr))
    simp only [List.map_cons, hxs]
    cases x with
    | mk post rs d =>
      simp only at hx
      subst hx
      rfl

theorem strip_annotated (dist : ℚ → ℚ → ℚ → ℚ → ℚ) (geoOk : ℚ → Post → Bool)
    (db : List Post) (p : SearchParams) :
    (annotatedResults dist geoOk db p).map (fun r => { r with distance := none })
      = processedResults geoOk db p := by
  have hnone : ∀ r ∈ processedResults geoOk db p, r.distance = none := by
    intro r hr
    exact (exists_of_mem_scored (mem_scored_of_mem_processed hr)).2.1
  unfold annotatedResults
  by_cases hg : geoActive p = true
  · rw [if_pos hg, List.map_map]
    exact map_strip_of_forall_none _ hnone
  · rw [if_neg hg]
    exact map_strip_of_forall_none _ hnone

theorem scoreKey_annotated (dist : ℚ → ℚ → ℚ → ℚ → ℚ) (geoOk : ℚ → Post → Bool)
    (db : List Post) (p : SearchParams) :
    (annotatedResults dist geoOk db p).map scoreKey
      = (processedResults geoOk db p).map scoreKey := by
  unfold annotatedResults
  by_cases hg : geoActive p = true
  · rw [if_pos hg, List.map_map]
    rfl
  · rw [if_neg hg]

theorem sorted_mergeSort_scoreKey (l : List SearchResult) :
    (l.mergeSort relLE).Pairwise (fun a b => scoreKey b ≤ scoreKey a) := by
  have h := List.sorted_mergeSort relLE_trans relLE_total l
  exact h.imp (fun hab => by simpa [relLE, decide_eq_true_eq] using hab)

theorem mem_processed_of_mem_posts {dist : ℚ → ℚ → ℚ → ℚ → ℚ}
    {geoOk : ℚ → Post → Bool} {db : List Post} {p : SearchParams} {r : SearchResult}
    (hr : r ∈ (advancedSearch dist geoOk db p).posts) :
    ∃ r', r' ∈ processedResults geoOk db p ∧
      ((geoActive p = true ∧ r = annotate dist p r')
        ∨ (geoActive p = false ∧ r = r')) := by
  have hr' : r ∈ annotatedResults dist geoOk db p := hr
  unfold annotatedResults at hr'
  by_cases hg : geoActive p = true
  · rw [if_pos hg] at hr'
    obtain ⟨r', hmem, rfl⟩ := List.mem_map.mp hr'
    exact ⟨r', hmem, Or.inl ⟨hg, rfl⟩⟩
  · rw [if_neg hg] at hr'
    exact ⟨r, hr', Or.inr ⟨by simpa using hg, rfl⟩⟩

/-- C1 counterexample: a caller-supplied filter binding the status key
overrides the approved restriction (JavaScript spread puts the
filter after the status key), so findNearbyPosts returns a pending listing. -/
theorem findNearbyPosts_status_override_counterexample :
    findNearbyPosts (fun _ => true) [pendingPost] { statusOverride := some .pending } 0 10
        = [pendingPost]
      ∧ pendingPost.status ≠ .approved := by
  exact ⟨rfl, by decide⟩

/-- C1 amended: advancedSearch results always have approved status (its
query writes the status key first and nothing overrides it), and
findNearbyPosts / findWithAdvancedFilter results have approved status
whenever the supplied filter does not itself bind the status key. -/
theorem onlyApproved_amended :
    (∀ (dist : ℚ → ℚ → ℚ → ℚ → ℚ) (geoOk : ℚ → Post → Bool) (db : List Post)
        (p : SearchParams) (r : SearchResult),
        r ∈ (advancedSearch dist geoOk db p).posts → r.post.status = .approved)
    ∧ (∀ (geoOk : Post → Bool) (db : List Post) (f : MongoFilter) (skip lim : ℕ)
        (post : Post), f.statusOverride = none →
        post ∈ findNearbyPosts geoOk db f skip lim → post.status = .approved)
    ∧ (∀ (db : List Post) (f : MongoFilter) (skip lim : ℕ) (post : Post),
        f.statusOverride = none →
        post ∈ (findWithAdvancedFilter db f skip lim).1 → post.status = .approved) := by
  refine ⟨?_, ?_, ?_⟩
  · intro dist geoOk db p r hr
    obtain ⟨r', hmem, hcase⟩ := mem_processed_of_mem_posts hr
    have happ := status_approved_of_mem_matched
      (mem_matched_of_mem_fetched (exists_of_mem_scored (mem_scored_of_mem_processed hmem)).1)
    rcases hcase with ⟨-, rfl⟩ | ⟨-, rfl⟩
    · exact happ
    · exact happ
  · intro geoOk db f skip lim post hnone hmem
    unfold findNearbyPosts at hmem
    have h := (List.mem_filter.mp (List.mem_of_mem_drop (List.mem_of_mem_take hmem))).2
    simp only [Bool.and_eq_true] at h
    have hs := h.1.1
    unfold statusMatches at hs
    rw [hnone] at hs
    exact of_decide_eq_true hs
  · intro db f skip lim post hnone hmem
    unfold findWithAdvancedFilter at hmem
    have h := (List.mem_filter.mp (List.mem_of_mem_drop (List.mem_of_mem_take hmem))).2
    simp only [Bool.and_eq_true] at h
    have hs := h.1
    unfold statusMatches at hs
    rw [hnone] at hs
    exact of_decide_eq_true hs

theorem onlyApproved_amended_witness :
    approvedBare ∈ findNearbyPosts (fun _ => true) [approvedBare] {} 0 10
      ∧ approvedBare.status = .approved :=
  ⟨by decide,
    onlyApproved_amended.2.1 (fun _ => true) [approvedBare] {} 0 10 approvedBare rfl (by decide)⟩

/-- Math.ceil(a / b) as implemented by jsCeilDiv agrees with the true
ceiling of the rational a / b whenever b is positive. -/
theorem jsCeilDiv_eq_ceil (a b : ℕ) (hb : 1 ≤ b) :
    ((jsCeilDiv a b : ℤ)) = ⌈(a : ℚ) / (b : ℚ)⌉ := by
  have hb0 : 0 < b := hb
  have hbq : (0 : ℚ) < (b : ℚ) := by exact_mod_cast hb0
  have hdm := Nat.div_add_mod (a + b - 1) b
  have hmlt : (a + b - 1) % b < b := Nat.mod_lt _ hb0
  have h1 : a ≤ b * ((a + b - 1) / b) := by omega
  have h2 : b * ((a + b - 1) / b) < a + b := by omega
  have h1q : (a : ℚ) ≤ (b : ℚ) * (((a + b - 1) / b : ℕ) : ℚ) := by exact_mod_cast h1
  have h2q : (b : ℚ) * (((a + b - 1) / b : ℕ) : ℚ) < (a : ℚ) + b := by exact_mod_cast h2
  have hcd : ((jsCeilDiv a b : ℤ) : ℚ) = (((a + b - 1) / b : ℕ) : ℚ) := by
    unfold jsCeilDiv
    norm_cast
  symm
  rw [Int.ceil_eq_iff]
  refine ⟨?_, ?_⟩
  · rw [hcd, lt_div_iff₀ hbq]
    linarith
  · rw [hcd, div_le_iff₀ hbq]
    linarith

/-- C2: the total match count in the pagination metadata equals the count of
records satisfying the predicate alone, independently of the fetch window,
the page and the sort mode, and the reported page count is the true ceiling
of total / pageSize. -/
theorem pagination_total_is_predicate_count (dist : ℚ → ℚ → ℚ → ℚ → ℚ)
    (geoOk : ℚ → Post → Bool) (db : List Post) (p : SearchParams)
    (hl : 1 ≤ limitOf p) :
    (advancedSearch dist geoOk db p).pagination.totalCount
        = (db.filter (matchesAdvanced geoOk p)).length
    ∧ ((advancedSearch dist geoOk db p).pagination.total : ℤ)
        = ⌈((db.filter (matchesAdvanced geoOk p)).length : ℚ) / (limitOf p : ℚ)⌉
    ∧ (∀ (sb : Option String) (pg : Option ℕ),
        (advancedSearch dist geoOk db { p with sortBy := sb, page := pg }).pagination.totalCount
          = (db.filter (matchesAdvanced geoOk p)).length) := by
  refine ⟨rfl, jsCeilDiv_eq_ceil _ _ hl, ?_⟩
  intro sb pg
  rfl

theorem pagination_total_witness :
    1 ≤ limitOf ({} : SearchParams)
    ∧ ((advancedSearch dist0 geoTrue [approvedBare] ({} : SearchParams)).pagination.totalCount
          = ([approvedBare].filter (matchesAdvanced geoTrue ({} : SearchParams))).length
      ∧ ((advancedSearch dist0 geoTrue [approvedBare] ({} : SearchParams)).pagination.total : ℤ)
          = ⌈(([approvedBare].filter (matchesAdvanced geoTrue ({} : SearchParams))).length : ℚ)
              / (limitOf ({} : SearchParams) : ℚ)⌉
      ∧ (∀ (sb : Option String) (pg : Option ℕ),
          (advancedSearch dist0 geoTrue [approvedBare]
              { ({} : SearchParams) with sortBy := sb, page := pg }).pagination.totalCount
            = ([approvedBare].filter (matchesAdvanced geoTrue ({} : SearchParams))).length)) :=
  ⟨by decide, pagination_total_is_predicate_count dist0 geoTrue [approvedBare] {} (by decide)⟩

/-- C10: in relevance mode, any page whose offset reaches the 5x window
(page six onward) returns an empty results array while the pagination
totals still reflect the full match count. -/
theorem relevance_page_overflow_empty (dist : ℚ → ℚ → ℚ → ℚ → ℚ)
    (geoOk : ℚ → Post → Bool) (db : List Post) (p : SearchParams)
    (ht : textActive p = true) (hs : sortByOf p ≠ "distance") (hp : 6 ≤ pageOf p) :
    (advancedSearch dist geoOk db p).posts = []
    ∧ (advancedSearch dist geoOk db p).pagination.totalCount
        = (db.filter (matchesAdvanced geoOk p)).length
    ∧ (advancedSearch dist geoOk db p).pagination.total
        = jsCeilDiv (db.filter (matchesAdvanced geoOk p)).length (limitOf p) := by
  have hrel : useRelevanceSort p = true := by
    simp [useRelevanceSort, ht, hs]
  refine ⟨?_, rfl, rfl⟩
  show annotatedResults dist geoOk db p = []
  have hproc : processedResults geoOk db p = [] := by
    unfold processedResults
    rw [if_pos hrel]
    have hsc : (scoredResults geoOk db p).length = (fetchedPosts geoOk db p).length := by
      unfold scoredResults
      by_cases ht2 : textActive p = true
      · rw [if_pos ht2, List.length_map]
      · rw [if_neg ht2, List.length_map]
    have hlen : ((scoredResults geoOk db p).mergeSort relLE).length ≤ 5 * limitOf p := by
      rw [List.length_mergeSort, hsc]
      unfold fetchedPosts
      calc (((matchedPosts geoOk db p).drop (fetchSkip p)).take (fetchLimit p)).length
          ≤ fetchLimit p := by
            rw [List.length_take]
            exact Nat.min_le_left _ _
        _ = limitOf p * 5 := by
            unfold fetchLimit
            rw [if_pos hrel]
        _ = 5 * limitOf p := Nat.mul_comm _ _
    have hskip : 5 * limitOf p ≤ skipOf p := by
      unfold skipOf
      exact Nat.mul_le_mul_right _ (by omega)
    rw [List.drop_eq_nil_of_le (le_trans hlen hskip), List.take_nil]
  unfold annotatedResults
  rw [hproc]
  by_cases hg : geoActive p = true
  · rw [if_pos hg]
    rfl
  · rw [if_neg hg]

theorem relevance_page_overflow_witness :
    (textActive overflowParams = true ∧ sortByOf overflowParams ≠ "distance"
        ∧ 6 ≤ pageOf overflowParams)
    ∧ ((advancedSearch dist0 geoTrue [titleMatchPost] overflowParams).posts = []
      ∧ (advancedSearch dist0 geoTrue [titleMatchPost] overflowParams).pagination.totalCount
          = ([titleMatchPost].filter (matchesAdvanced geoTrue overflowParams)).length
      ∧ (advancedSearch dist0 geoTrue [titleMatchPost] overflowParams).pagination.total
          = jsCeilDiv ([titleMatchPost].filter (matchesAdvanced geoTrue overflowParams)).length
              (limitOf overflowParams)) :=
  ⟨⟨by decide, by decide, by decide⟩,
    relevance_page_overflow_empty dist0 geoTrue [titleMatchPost] overflowParams
      (by decide) (by decide) (by decide)⟩

/-- C3: in relevance mode the engine fetches a window of at most five pages
from offset zero, scores every candidate, stable-sorts by descending score
(any two equal-score results keep their fetch order) and returns exactly the
slice [(page-1)*limit, (page-1)*limit + limit) of the sorted window. -/
theorem relevance_mode_window_slice (dist : ℚ → ℚ → ℚ → ℚ → ℚ)
    (geoOk : ℚ → Post → Bool) (db : List Post) (p : SearchParams)
    (ht : textActive p = true) (hs : sortByOf p ≠ "distance") :
    (fetchedPosts geoOk db p).length ≤ 5 * limitOf p
    ∧ fetchedPosts geoOk db p = (matchedPosts geoOk db p).take (5 * limitOf p)
    ∧ scoredResults geoOk db p
        = (fetchedPosts geoOk db p).map (scoreResult (searchTextOf p))
    ∧ ∃ sorted : List SearchResult,
        (scoredResults geoOk db p).Perm sorted
        ∧ sorted.Pairwise (fun a b => scoreKey b ≤ scoreKey a)
        ∧ (∀ a b : SearchResult,
            List.Sublist [a, b] (scoredResults geoOk db p) →
              scoreKey a = scoreKey b → List.Sublist [a, b] sorted)
        ∧ (advancedSearch dist geoOk db p).posts.map (fun r => { r with distance := none })
            = (sorted.drop ((pageOf p - 1) * limitOf p)).take (limitOf p) := by
  have hrel : useRelevanceSort p = true := by
    simp [useRelevanceSort, ht, hs]
  have hfl : fetchLimit p = limitOf p * 5 := by
    unfold fetchLimit
    rw [if_pos hrel]
  have hfs : fetchSkip p = 0 := by
    unfold fetchSkip
    rw [if_pos hrel]
  refine ⟨?_, ?_, ?_, (scoredResults geoOk db p).mergeSort relLE, ?_, ?_, ?_, ?_⟩
  · unfold fetchedPosts
    rw [hfl, List.length_take]
    exact le_trans (Nat.min_le_left _ _) (Nat.le_of_eq (Nat.mul_comm _ _))
  · unfold fetchedPosts
    rw [hfs, hfl, List.drop_zero, Nat.mul_comm]
  · unfold scoredResults
    rw [if_pos ht]
  · exact (List.mergeSort_perm _ _).symm
  · exact sorted_mergeSort_scoreKey _
  · intro a b hsub heq
    refine List.pair_sublist_mergeSort relLE_trans relLE_total ?_ hsub
    simp [relLE, heq]
  · have h1 : (advancedSearch dist geoOk db p).posts.map
        (fun r => { r with distance := none }) = processedResults geoOk db p :=
      strip_annotated dist geoOk db p
    rw [h1]
    unfold processedResults
    rw [if_pos hrel]
    rfl

theorem relevance_mode_window_slice_witness :
    (textActive searchXParams = true ∧ sortByOf searchXParams ≠ "distance")
    ∧ ((fetchedPosts geoTrue [titleMatchPost] searchXParams).length ≤ 5 * limitOf searchXParams
      ∧ fetchedPosts geoTrue [titleMatchPost] searchXParams
          = (matchedPosts geoTrue [titleMatchPost] searchXParams).take (5 * limitOf searchXParams)
      ∧ scoredResults geoTrue [titleMatchPost] searchXParams
          = (fetchedPosts geoTrue [titleMatchPost] searchXParams).map
              (scoreResult (searchTextOf searchXParams))
      ∧ ∃ sorted : List SearchResult,
          (scoredResults geoTrue [titleMatchPost] searchXParams).Perm sorted
          ∧ sorted.Pairwise (fun a b => scoreKey b ≤ scoreKey a)
          ∧ (∀ a b : SearchResult,
              List.Sublist [a, b] (scoredResults geoTrue [titleMatchPost] searchXParams) →
                scoreKey a = scoreKey b → List.Sublist [a, b] sorted)
          ∧ (advancedSearch dist0 geoTrue [titleMatchPost] searchXParams).posts.map
                (fun r => { r with distance := none })
              = (sorted.drop ((pageOf searchXParams - 1) * limitOf searchXParams)).take
                  (limitOf searchXParams)) :=
  ⟨⟨by decide, by decide⟩,
    relevance_mode_window_slice dist0 geoTrue [titleMatchPost] searchXParams
      (by decide) (by decide)⟩

/-- C4 counterexample: with free text and sortBy distance the native order is
kept, so a page can carry strictly increasing relevance scores; the request
here returns scores [3, 10]. -/
theorem distance_sort_scores_not_monotone :
    textActive distanceParams = true
    ∧ sortByOf distanceParams = "distance"
    ∧ ((advancedSearch dist0 geoTrue [descOnlyPost, titleMatchPost] distanceParams).posts.map
          (fun r => r.relevanceScore)) = [some 3, some 10]
    ∧ ¬ (((advancedSearch dist0 geoTrue [descOnlyPost, titleMatchPost] distanceParams).posts.map
          scoreKey).Pairwise (fun a b : ℚ => b ≤ a)) := by
  have e1 : jsIncludes "home" "x" = false := by decide
  have e2 : ¬(jsToLower "home" = jsToLower "x") := by decide
  have e3 : jsIncludes "" "x" = false := by decide
  have e4 : jsIncludes "x marks" "x" = true := by decide
  have f1 : jsIncludes "box" "x" = true := by decide
  have f2 : ¬(jsToLower "box" = jsToLower "x") := by decide
  have hscore3 : calculateRelevanceScore descOnlyPost "x" = 3 := by
    rw [calculateRelevanceScore_eq_specScore _ _ (by decide)]
    simp [specRelevanceScore, weightIf, descOnlyPost, e1, e2, e3, e4]
  have hscore10 : calculateRelevanceScore titleMatchPost "x" = 10 := by
    rw [calculateRelevanceScore_eq_specScore _ _ (by decide)]
    simp [specRelevanceScore, weightIf, titleMatchPost, f1, f2, e3]
  have hposts : (advancedSearch dist0 geoTrue [descOnlyPost, titleMatchPost] distanceParams).posts
      = [scoreResult "x" descOnlyPost, scoreResult "x" titleMatchPost] := by
    show annotatedResults dist0 geoTrue [descOnlyPost, titleMatchPost] distanceParams = _
    unfold annotatedResults
    rw [if_neg (by decide : ¬ geoActive distanceParams = true)]
    unfold processedResults
    rw [if_neg (by decide : ¬ useRelevanceSort distanceParams = true)]
    unfold scoredResults
    rw [if_pos (by decide : textActive distanceParams = true)]
    have hf : fetchedPosts geoTrue [descOnlyPost, titleMatchPost] distanceParams
        = [descOnlyPost, titleMatchPost] := by decide
    rw [hf]
    rfl
  refine ⟨by decide, by decide, ?_, ?_⟩
  · rw [hposts]
    simp [scoreResult, hscore3, hscore10]
  · rw [hposts]
    simp only [List.map_cons, List.map_nil, List.pairwise_cons, List.mem_cons,
      List.not_mem_nil, scoreKey, scoreResult, hscore3, hscore10]
    intro hcon
    have h1 := hcon.1 _ (Or.inl rfl)
    simp only [Option.getD_some] at h1
    norm_num at h1

/-- C4 amended: for requests with a nonempty free-text query whose sort key
is not distance (relevance mode), scores within a response page are
non-increasing in array order; with sortBy distance the store order is kept
verbatim and scores may increase. -/
theorem relevance_scores_nonincreasing_within_page (dist : ℚ → ℚ → ℚ → ℚ → ℚ)
    (geoOk : ℚ → Post → Bool) (db : List Post) (p : SearchParams)
    (ht : textActive p = true) (hs : sortByOf p ≠ "distance") :
    ((advancedSearch dist geoOk db p).posts.map scoreKey).Pairwise (fun a b => b ≤ a) := by
  have hrel : useRelevanceSort p = true := by
    simp [useRelevanceSort, ht, hs]
  have h1 : (advancedSearch dist geoOk db p).posts.map scoreKey
      = (processedResults geoOk db p).map scoreKey := scoreKey_annotated dist geoOk db p
  rw [h1, List.pairwise_map]
  unfold processedResults
  rw [if_pos hrel]
  exact (sorted_mergeSort_scoreKey _).sublist
    ((List.take_sublist _ _).trans (List.drop_sublist _ _))

theorem relevance_scores_nonincreasing_witness :
    (textActive searchXParams = true ∧ sortByOf searchXParams ≠ "distance")
    ∧ ((advancedSearch dist0 geoTrue [descOnlyPost, titleMatchPost] searchXParams).posts.map
          scoreKey).Pairwise (fun a b => b ≤ a) :=
  ⟨⟨by decide, by decide⟩,
    relevance_scores_nonincreasing_within_page dist0 geoTrue [descOnlyPost, titleMatchPost]
      searchXParams (by decide) (by decide)⟩

/-- C5: for every listing and nonempty free-text query the scorer returns
exactly the additive sum of the weight table of the spec and is non-negative;
being a pure function of its inputs it is deterministic and side-effect
free by construction. -/
theorem relevance_score_contract (post : Post) (q : String) (hq : q ≠ "") :
    calculateRelevanceScore post q = specRelevanceScore post q
    ∧ 0 ≤ calculateRelevanceScore post q := by
  have he := calculateRelevanceScore_eq_specScore post q hq
  exact ⟨he, he ▸ specRelevanceScore_nonneg post q⟩

theorem relevance_score_contract_witness :
    ("market" : String) ≠ ""
    ∧ (calculateRelevanceScore marketTitlePost "market"
          = specRelevanceScore marketTitlePost "market"
      ∧ 0 ≤ calculateRelevanceScore marketTitlePost "market") :=
  ⟨by decide, relevance_score_contract marketTitlePost "market" (by decide)⟩

/-- C6 counterexample: a bare title-match listing scores 10 and a bare
description-only match scores 3, a gap of 7, so the title-match listing does
not score at least 10 points higher. -/
theorem title_vs_description_gap_counterexample :
    jsIncludes marketTitlePost.title "market" = true
    ∧ jsToLower marketTitlePost.title ≠ jsToLower "market"
    ∧ jsIncludes marketDescPost.description "market" = true
    ∧ jsIncludes marketDescPost.title "market" = false
    ∧ marketDescPost.tags = [] ∧ marketDescPost.keywords = []
    ∧ jsIncludes marketDescPost.province "market" = false
    ∧ jsIncludes marketDescPost.district "market" = false
    ∧ jsIncludes marketDescPost.street "market" = false
    ∧ marketDescPost.featured = false ∧ marketDescPost.urgent = false
    ∧ marketDescPost.viewCount = 0
    ∧ ¬ (calculateRelevanceScore marketDescPost "market" + 10
          ≤ calculateRelevanceScore marketTitlePost "market") := by
  have g1 : jsIncludes "House near market" "market" = true := by decide
  have g2 : ¬(jsToLower "House near market" = jsToLower "market") := by decide
  have g3 : jsIncludes "" "market" = false := by decide
  have g4 : jsIncludes "Plot near the market" "market" = true := by decide
  have hT : calculateRelevanceScore marketTitlePost "market" = 10 := by
    rw [calculateRelevanceScore_eq_specScore _ _ (by decide)]
    simp [specRelevanceScore, weightIf, marketTitlePost, g1, g2, g3]
  have g5 : ¬(jsToLower "" = jsToLower "market") := by decide
  have hD : calculateRelevanceScore marketDescPost "market" = 3 := by
    rw [calculateRelevanceScore_eq_specScore _ _ (by decide)]
    simp [specRelevanceScore, weightIf, marketDescPost, g3, g4, g5]
  refine ⟨by decide, by decide, by decide, by decide, rfl, rfl, by decide, by decide,
    by decide, rfl, rfl, rfl, ?_⟩
  rw [hT, hD]
  norm_num

/-- C6 amended: for the query market, a listing whose title contains the
query scores at least 7 points (the spec says 10; 10 title weight minus 3
description weight is 7) above any listing whose only match is its
description and which carries no featured/urgent/popularity boost. -/
theorem title_match_at_least_seven_higher (t d : Post)
    (ht : jsIncludes t.title "market" = true)
    (hd1 : jsIncludes d.title "market" = false)
    (hd2 : d.tags.countP (fun s => jsIncludes s "market") = 0)
    (hd3 : d.keywords.countP (fun s => jsIncludes s "market") = 0)
    (hd4 : jsIncludes d.province "market" = false)
    (hd5 : jsIncludes d.district "market" = false)
    (hd6 : jsIncludes d.street "market" = false)
    (hd7 : d.featured = false) (hd8 : d.urgent = false) (hd9 : d.viewCount = 0) :
    calculateRelevanceScore d "market" + 7 ≤ calculateRelevanceScore t "market" := by
  have hq : ("market" : String) ≠ "" := by decide
  rw [calculateRelevanceScore_eq_specScore t _ hq, calculateRelevanceScore_eq_specScore d _ hq]
  have h1 : specRelevanceScore d "market" ≤ 3 :=
    specRelevanceScore_descOnly_le d "market" hd1 hd2 hd3 hd4 hd5 hd6 hd7 hd8 hd9
  have h2 := specRelevanceScore_ge_title t "market"
  have h3 : weightIf (jsIncludes t.title "market") 10 = 10 := by
    simp [weightIf, ht]
  rw [h3] at h2
  linarith

theorem title_match_at_least_seven_higher_witness :
    (jsIncludes marketTitlePost.title "market" = true
      ∧ jsIncludes marketDescPost.title "market" = false
      ∧ marketDescPost.tags.countP (fun s => jsIncludes s "market") = 0
      ∧ marketDescPost.keywords.countP (fun s => jsIncludes s "market") = 0
      ∧ jsIncludes marketDescPost.province "market" = false
      ∧ jsIncludes marketDescPost.district "market" = false
      ∧ jsIncludes marketDescPost.street "market" = false
      ∧ marketDescPost.featured = false ∧ marketDescPost.urgent = false
      ∧ marketDescPost.viewCount = 0)
    ∧ calculateRelevanceScore marketDescPost "market" + 7
        ≤ calculateRelevanceScore marketTitlePost "market" :=
  ⟨⟨by decide, by decide, by decide, by decide, by decide, by decide, by decide,
      rfl, rfl, rfl⟩,
    title_match_at_least_seven_higher marketTitlePost marketDescPost (by decide) (by decide)
      (by decide) (by decide) (by decide) (by decide) (by decide) rfl rfl rfl⟩

/-- C7 counterexample: the advanced-search route performs no geocenter
validation: latitude 999 flows straight through and the store query
executes; no validation error is produced. -/
theorem searchPosts_no_coordinate_validation :
    outOfRangeLatParams.latitude = some 999
    ∧ ¬((999 : ℚ) ≤ 90)
    ∧ searchPostsRoute dist0 geoTrue [] outOfRangeLatParams
        = Except.ok (advancedSearch dist0 geoTrue [] outOfRangeLatParams) :=
  ⟨rfl, by decide, rfl⟩

/-- C7 amended: only the nearby-posts handler validates the geocenter: an
out-of-range latitude or longitude is rejected with a validation error
before, and independently of, any store query; the advanced-search handler
performs no coordinate validation and always executes the store query. -/
theorem coordinate_validation_split :
    (∀ (geoOk : Post → Bool) (db : List Post) (extra : Post → Bool)
        (la lo : ℚ) (page lim : ℕ),
        (la < -90 ∨ la > 90 ∨ lo < -180 ∨ lo > 180) →
        getNearbyPostsRoute geoOk db (some la) (some lo) page lim extra
          = Except.error "Invalid latitude or longitude values")
    ∧ (∀ (dist : ℚ → ℚ → ℚ → ℚ → ℚ) (geoOk : ℚ → Post → Bool) (db : List Post)
        (p : SearchParams),
        searchPostsRoute dist geoOk db p = Except.ok (advancedSearch dist geoOk db p)) := by
  constructor
  · intro geoOk db extra la lo page lim hbad
    have hred : getNearbyPostsRoute geoOk db (some la) (some lo) page lim extra
        = if la < -90 ∨ la > 90 ∨ lo < -180 ∨ lo > 180 then
            Except.error "Invalid latitude or longitude values"
          else
            Except.ok (findNearbyPosts geoOk db { pred := extra } ((page - 1) * lim) lim) := rfl
    rw [hred, if_pos hbad]
  · intro dist geoOk db p
    rfl

theorem coordinate_validation_split_witness :
    ((999 : ℚ) > 90)
    ∧ getNearbyPostsRoute (fun _ => true) [] (some 999) (some 100) 1 10 (fun _ => true)
        = Except.error "Invalid latitude or longitude values" :=
  ⟨by decide,
    coordinate_validation_split.1 (fun _ => true) [] (fun _ => true) 999 100 1 10
      (Or.inr (Or.inl (by decide)))⟩

/-- C8 counterexample: a supplied, in-range geocenter with latitude 0 is
falsy in JavaScript, so the geospatial clause is dropped and no result
carries a distance annotation. -/
theorem inrange_zero_latitude_unannotated :
    zeroLatParams.latitude = some 0
    ∧ ((-90 : ℚ) ≤ 0 ∧ (0 : ℚ) ≤ 90)
    ∧ zeroLatParams.longitude = some 100
    ∧ ((-180 : ℚ) ≤ 100 ∧ (100 : ℚ) ≤ 180)
    ∧ ((advancedSearch dist0 geoTrue [approvedBare] zeroLatParams).posts.map
        (fun r => r.distance)) = [none] := by
  refine ⟨rfl, by decide, rfl, by decide, ?_⟩
  decide

/-- C8 amended: every result carries a distance annotation exactly when both
coordinates are supplied and truthy (nonzero), and a relevance score exactly
when a nonempty free-text query is supplied. -/
theorem annotation_presence_iff_truthy (dist : ℚ → ℚ → ℚ → ℚ → ℚ)
    (geoOk : ℚ → Post → Bool) (db : List Post) (p : SearchParams) (r : SearchResult)
    (hr : r ∈ (advancedSearch dist geoOk db p).posts) :
    r.distance.isSome = geoActive p ∧ r.relevanceScore.isSome = textActive p := by
  obtain ⟨r', hmem, hcase⟩ := mem_processed_of_mem_posts hr
  obtain ⟨hfetch, hdnone, hscore⟩ := exists_of_mem_scored (mem_scored_of_mem_processed hmem)
  have hsc : r'.relevanceScore.isSome = textActive p := by
    rw [hscore]
    by_cases ht : textActive p = true
    · rw [if_pos ht, ht]
      rfl
    · rw [if_neg ht]
      simp only [Bool.not_eq_true] at ht
      rw [ht]
      rfl
  rcases hcase with ⟨hg, rfl⟩ | ⟨hg, rfl⟩
  · exact ⟨by rw [hg]; rfl, hsc⟩
  · exact ⟨by rw [hg, hdnone]; rfl, hsc⟩

theorem annotation_presence_iff_truthy_witness :
    (⟨approvedBare, none, none⟩ : SearchResult) ∈
        (advancedSearch dist0 geoTrue [approvedBare] ({} : SearchParams)).posts
    ∧ ((⟨approvedBare, none, none⟩ : SearchResult).distance.isSome
          = geoActive ({} : SearchParams)
      ∧ (⟨approvedBare, none, none⟩ : SearchResult).relevanceScore.isSome
          = textActive ({} : SearchParams)) :=
  ⟨by decide,
    annotation_presence_iff_truthy dist0 geoTrue [approvedBare] {}
      ⟨approvedBare, none, none⟩ (by decide)⟩

/-- C9 amended: PostQueryHelper.calculateDistance implements exactly the
spec haversine in meters rounded to the nearest integer, while
CoordinateUtils.calculateDistance implements the same haversine but returns
kilometers without rounding. -/
theorem haversine_formulas_agree (lat1 lon1 lat2 lon2 : ℝ) :
    calculateDistanceMeters lat1 lon1 lat2 lon2 = specHaversineMeters lat1 lon1 lat2 lon2
    ∧ coordinateUtilsDistance lat1 lon1 lat2 lon2 = specHaversineKm lat1 lon1 lat2 lon2 := by
  have ha : Real.sin (deg2rad (lat2 - lat1) / 2) * Real.sin (deg2rad (lat2 - lat1) / 2)
      + Real.cos (deg2rad lat1) * Real.cos (deg2rad lat2)
        * Real.sin (deg2rad (lon2 - lon1) / 2) * Real.sin (deg2rad (lon2 - lon1) / 2)
      = Real.sin (deg2rad (lat2 - lat1) / 2) ^ 2
        + Real.cos (deg2rad lat1) * Real.cos (deg2rad lat2)
          * Real.sin (deg2rad (lon2 - lon1) / 2) ^ 2 := by
    ring
  constructor
  · simp only [calculateDistanceMeters, specHaversineMeters, specHaversineKm]
    rw [ha]
    congr 2
    ring
  · simp only [coordinateUtilsDistance, specHaversineKm]
    rw [ha]
    ring

theorem coordinateUtils_antipodal :
    coordinateUtilsDistance 0 0 0 180 = 6371 * Real.pi := by
  simp only [coordinateUtilsDistance, atan2, deg2rad]
  have h1 : ((0 : ℝ) - 0) * (Real.pi / 180) / 2 = 0 := by ring
  have h2 : ((180 : ℝ) - 0) * (Real.pi / 180) / 2 = Real.pi / 2 := by ring
  have h3 : (0 : ℝ) * (Real.pi / 180) = 0 := by ring
  rw [h1, h2, h3, Real.sin_zero, Real.cos_zero, Real.sin_pi_div_two]
  norm_num [Real.sqrt_one, Real.sqrt_zero]
  rw [show (⟨0, 1⟩ : ℂ) = Complex.I from rfl, Complex.arg_I]
  ring

theorem specKm_antipodal :
    specHaversineKm 0 0 0 180 = 6371 * Real.pi := by
  simp only [specHaversineKm, atan2, deg2rad]
  have h1 : ((0 : ℝ) - 0) * (Real.pi / 180) / 2 = 0 := by ring
  have h2 : ((180 : ℝ) - 0) * (Real.pi / 180) / 2 = Real.pi / 2 := by ring
  have h3 : (0 : ℝ) * (Real.pi / 180) = 0 := by ring
  rw [h1, h2, h3, Real.sin_zero, Real.cos_zero, Real.sin_pi_div_two]
  norm_num [Real.sqrt_one, Real.sqrt_zero]
  rw [show (⟨0, 1⟩ : ℂ) = Complex.I from rfl, Complex.arg_I]
  ring

/-- C9 counterexample: from (0, 0) to (0, 180) CoordinateUtils returns
6371 pi (about twenty thousand, in kilometers, unrounded), which differs
from the meters-rounded haversine value (about twenty million). -/
theorem coordinateUtils_distance_not_rounded_meters :
    coordinateUtilsDistance 0 0 0 180 ≠ specHaversineMeters 0 0 0 180 := by
  have hpi3 : (3 : ℝ) < Real.pi := Real.pi_gt_three
  have hpi4 : Real.pi < 4 := Real.pi_lt_four
  have hub : coordinateUtilsDistance 0 0 0 180 < 25484 := by
    rw [coordinateUtils_antipodal]
    nlinarith
  have hlb : (19112999 : ℝ) < specHaversineMeters 0 0 0 180 := by
    unfold specHaversineMeters
    rw [specKm_antipodal]
    have hr := sub_half_lt_round (6371 * Real.pi * 1000)
    nlinarith
  intro heq
  rw [heq] at hub
  linarith

end Dindee
